import Mathlib

/-!
# Sheet Ingestion & Snapshot Consistency Engine — verification development

Shallow embedding of the core ingestion components of the repository:

* `compute_sheet_hash` (src/data_sources/gsheet/sheet_hasher.py)
* `detect_tables_custom` / `expand_table_region` (src/table detector/custom_detector.py)
* `clean_detected_tables` (src/table detector/table_cleaner.py)
* `detect_and_clean_tables` (src/data_sources/gsheet/table_detection.py)
* `sanitize_table_name`, `delete_tables_by_source_id`, `load_snapshot`
  (src/data_sources/gsheet/snapshot_loader.py)
* `get_changed_sheets`, `needs_refresh`, `mark_synced`
  (src/data_sources/gsheet/change_detector.py)
* the sync portion of `run` (src/run_query.py)

Modelling conventions:

* Python strings are Lean `String`s; cells loaded from the spreadsheet are
  strings (gspread `get_all_values` returns strings), a possibly missing cell
  is `Option String`.
* Python `str.strip()` is modelled over the ASCII whitespace characters
  (space, tab, newline, carriage return, vertical tab, form feed); the inputs
  in all concrete theorems are ASCII.
* Fractional thresholds (`0.3`, `0.6`, `0.4` in the detector and cleaner) are
  modelled by exact integer cross-multiplication (`10*count ≥ 3*width` etc.);
  for the small integer operand ranges appearing in this code the IEEE-754
  double comparison agrees with the rational one.
* `compute_sheet_hash` feeds a canonical JSON serialization to SHA-256 and
  returns the hex digest.  The embedding returns the exact byte string that
  the source hands to SHA-256 (`""` for an empty grid, matching
  `sha256(b"")`, and the canonical JSON text otherwise).  SHA-256 is a fixed
  function, so equal serializations yield equal digests; distinct
  serializations yield distinct digests under the collision-freedom reading
  the specification itself uses ("different data = different hash").
* File/IO effects (DuckDB, the JSON registry and metadata files, ChromaDB)
  are modelled as explicit state (`SnapshotState`) plus an event trace
  (`SyncEvent`) recording the externally visible calls in program order.
-/

namespace KiwiRag

/-! ## Python string helpers -/

/-- ASCII whitespace as recognised by Python `str.strip()`. -/
def pySpace (c : Char) : Bool :=
  c = ' ' || c = '\t' || c = '\n' || c = '\r' || c = Char.ofNat 11 || c = Char.ofNat 12

/-- `str.strip()` on a character list: drop leading and trailing whitespace. -/
def pyStripList (l : List Char) : List Char :=
  ((l.dropWhile pySpace).reverse.dropWhile pySpace).reverse

/-- Python `str.strip()`. -/
def pyStrip (s : String) : String := ⟨pyStripList s.data⟩

/-- Python truthiness of an optional string (`None` and `""` are falsy). -/
def truthy : Option String → Bool
  | none => false
  | some s => s ≠ ""

/-! ## Sheet hasher (src/data_sources/gsheet/sheet_hasher.py)

`compute_sheet_hash` canonicalizes the raw grid (None/empty → `""`, other
cells stripped), serializes it with
`json.dumps(..., sort_keys=False, separators=(',', ':'), ensure_ascii=True)`
and hashes the UTF-8 bytes with SHA-256.  An empty grid hashes `b""`. -/

/-- A raw grid: rows of cells; a cell is a string or missing (`None`). -/
abbrev RawGrid := List (List (Option String))

/-- Cell canonicalization from `compute_sheet_hash`:
`if cell is None or cell == '': '' else str(cell).strip()`. -/
def normalizeCell : Option String → String
  | none => ""
  | some s => if s = "" then "" else pyStrip s

/-- The canonical grid `compute_sheet_hash` builds before serializing. -/
def canonicalGrid (g : RawGrid) : List (List String) :=
  g.map (fun row => row.map normalizeCell)

/-- Lower-case hexadecimal digit, as produced by Python's `\uXXXX` escapes. -/
def hexDigit (n : Nat) : Char :=
  if n < 10 then Char.ofNat (48 + n) else Char.ofNat (87 + n)

/-- One character as escaped by `json.dumps(..., ensure_ascii=True)`:
`"` and `\` and the short control escapes, `\u00XX` for other control
characters, printable ASCII verbatim, `\uXXXX` (with a surrogate pair above
the BMP) for everything non-ASCII. -/
def escapeChar (c : Char) : List Char :=
  if c = '"' then ['\\', '"']
  else if c = '\\' then ['\\', '\\']
  else if c = '\n' then ['\\', 'n']
  else if c = '\r' then ['\\', 'r']
  else if c = '\t' then ['\\', 't']
  else if c = Char.ofNat 8 then ['\\', 'b']
  else if c = Char.ofNat 12 then ['\\', 'f']
  else if c.toNat < 32 then
    ['\\', 'u', '0', '0', hexDigit (c.toNat / 16), hexDigit (c.toNat % 16)]
  else if c.toNat < 127 then [c]
  else if c.toNat < 65536 then
    ['\\', 'u', hexDigit (c.toNat / 4096 % 16), hexDigit (c.toNat / 256 % 16),
     hexDigit (c.toNat / 16 % 16), hexDigit (c.toNat % 16)]
  else
    let v := c.toNat - 65536
    let hi := 55296 + v / 1024
    let lo := 56320 + v % 1024
    ['\\', 'u', hexDigit (hi / 4096 % 16), hexDigit (hi / 256 % 16),
     hexDigit (hi / 16 % 16), hexDigit (hi % 16),
     '\\', 'u', hexDigit (lo / 4096 % 16), hexDigit (lo / 256 % 16),
     hexDigit (lo / 16 % 16), hexDigit (lo % 16)]

/-- JSON-escaped body of a string (no surrounding quotes). -/
def escBody (s : List Char) : List Char := s.flatMap escapeChar

/-- A JSON string literal: `"` body `"`. -/
def encodeStr (s : List Char) : List Char := '"' :: (escBody s ++ ['"'])

/-- Comma-join of already-encoded pieces (the `separators=(',', ':')` form). -/
def joinComma : List (List Char) → List Char
  | [] => []
  | [x] => x
  | x :: y :: xs => x ++ ',' :: joinComma (y :: xs)

/-- A JSON array of strings (character-list level). -/
def encodeRowL (r : List (List Char)) : List Char :=
  '[' :: (joinComma (r.map encodeStr) ++ [']'])

/-- A JSON array of strings. -/
def encodeRow (r : List String) : List Char := encodeRowL (r.map String.data)

/-- A JSON array of arrays (character-list level). -/
def encodeGridL (g : List (List (List Char))) : List Char :=
  '[' :: (joinComma (g.map encodeRowL) ++ [']'])

/-- A JSON array of arrays of strings — the `json.dumps` output for the
canonical grid. -/
def encodeGrid (g : List (List String)) : List Char :=
  encodeGridL (g.map (fun r => r.map String.data))

/-- The byte string `compute_sheet_hash` feeds to SHA-256: `""` for an empty
grid (the source hashes `b""` there), else the compact JSON serialization of
the canonical grid.  The digest is SHA-256 of this string; we identify the
digest with its preimage (see the header note). -/
def compute_sheet_hash (g : RawGrid) : String :=
  if g.isEmpty then "" else ⟨encodeGrid (canonicalGrid g)⟩

/-- The claim-side strip function for C10: a cell's value after stripping,
with `None` treated as the empty string. -/
def stripCell : Option String → String
  | none => ""
  | some s => pyStrip s

/-! ### A decoder for the canonical serialization

The serialization above is injective on canonical grids; we prove it by
exhibiting a decoder and a round-trip theorem.  The decoder exists only for
this proof — it embeds no source code. -/

/-- Value of a lower-case hexadecimal digit character. -/
def unhex (c : Char) : Option Nat :=
  if '0' ≤ c ∧ c ≤ '9' then some (c.toNat - 48)
  else if 'a' ≤ c ∧ c ≤ 'f' then some (c.toNat - 87)
  else none

/-- Four hexadecimal digits as one number. -/
def unhex4 (a b c d : Char) : Option Nat := do
  let va ← unhex a
  let vb ← unhex b
  let vc ← unhex c
  let vd ← unhex d
  pure (((va * 16 + vb) * 16 + vc) * 16 + vd)

/-- UTF-16 code units of one character (the unit sequence that
`ensure_ascii` escapes spell out). -/
def charUnits (c : Char) : List Nat :=
  if c.toNat < 65536 then [c.toNat]
  else [55296 + (c.toNat - 65536) / 1024, 56320 + (c.toNat - 65536) % 1024]

/-- UTF-16 code units of a string. -/
def unitsOf (s : List Char) : List Nat := s.flatMap charUnits

/-- Decode a JSON string body up to (and consuming) the closing quote,
returning the decoded code units and the rest of the input.  All decoders
take a fuel argument (structural recursion on the fuel). -/
def parseBody : Nat → List Char → Option (List Nat × List Char)
  | 0, _ => none
  | _ + 1, [] => none
  | f + 1, c :: rest =>
    if c = '"' then some ([], rest)
    else if c = '\\' then
      match rest with
      | [] => none
      | e :: r =>
        if e = '"' then (parseBody f r).map (fun p => (34 :: p.1, p.2))
        else if e = '\\' then (parseBody f r).map (fun p => (92 :: p.1, p.2))
        else if e = 'n' then (parseBody f r).map (fun p => (10 :: p.1, p.2))
        else if e = 'r' then (parseBody f r).map (fun p => (13 :: p.1, p.2))
        else if e = 't' then (parseBody f r).map (fun p => (9 :: p.1, p.2))
        else if e = 'b' then (parseBody f r).map (fun p => (8 :: p.1, p.2))
        else if e = 'f' then (parseBody f r).map (fun p => (12 :: p.1, p.2))
        else if e = 'u' then
          match r with
          | h1 :: h2 :: h3 :: h4 :: r2 =>
            match unhex4 h1 h2 h3 h4 with
            | none => none
            | some v => (parseBody f r2).map (fun p => (v :: p.1, p.2))
          | _ => none
        else none
    else (parseBody f rest).map (fun p => (c.toNat :: p.1, p.2))

/-- Decode a JSON string literal (expects the opening quote). -/
def parseStrLit (f : Nat) : List Char → Option (List Nat × List Char)
  | [] => none
  | c :: rest => if c = '"' then parseBody f rest else none

/-- Decode the elements after the first one in a JSON array of strings:
either `]` ends the array or `,` introduces another string literal. -/
def parseRowTail : Nat → List Char → Option (List (List Nat) × List Char)
  | 0, _ => none
  | _ + 1, [] => none
  | f + 1, c :: rest =>
    if c = ']' then some ([], rest)
    else if c = ',' then
      match parseStrLit f rest with
      | none => none
      | some (x, r2) => (parseRowTail f r2).map (fun p => (x :: p.1, p.2))
    else none

/-- Decode a JSON array of strings. -/
def parseRow : Nat → List Char → Option (List (List Nat) × List Char)
  | 0, _ => none
  | _ + 1, [] => none
  | f + 1, c :: rest =>
    if c = '[' then
      match rest with
      | [] => none
      | d :: _ =>
        if d = ']' then some ([], rest.tail)
        else
          match parseStrLit f rest with
          | none => none
          | some (x, r2) => (parseRowTail f r2).map (fun p => (x :: p.1, p.2))
    else none

/-- Decode the rows after the first one in a JSON array of arrays. -/
def parseGridTail : Nat → List Char → Option (List (List (List Nat)) × List Char)
  | 0, _ => none
  | _ + 1, [] => none
  | f + 1, c :: rest =>
    if c = ']' then some ([], rest)
    else if c = ',' then
      match parseRow f rest with
      | none => none
      | some (x, r2) => (parseGridTail f r2).map (fun p => (x :: p.1, p.2))
    else none

/-- Decode a JSON array of arrays of strings. -/
def parseGrid : Nat → List Char → Option (List (List (List Nat)) × List Char)
  | 0, _ => none
  | _ + 1, [] => none
  | f + 1, c :: rest =>
    if c = '[' then
      match rest with
      | [] => none
      | d :: _ =>
        if d = ']' then some ([], rest.tail)
        else
          match parseRow f rest with
          | none => none
          | some (x, r2) => (parseGridTail f r2).map (fun p => (x :: p.1, p.2))
    else none

/-- Fuel sufficient to decode one encoded row's elements. -/
def fuelRow : List (List Char) → Nat
  | [] => 1
  | x :: xs => (unitsOf x).length + 2 + fuelRow xs

/-- Fuel sufficient to decode an encoded grid. -/
def fuelGrid : List (List (List Char)) → Nat
  | [] => 1
  | r :: rs => fuelRow r + 2 + fuelGrid rs

/-! ## Table structures and the grid segmenter
(src/table detector/custom_detector.py)

A `Df` models a pandas `DataFrame` whose cells are strings (the sheets are
loaded from gspread `get_all_values`, which yields strings; blank = `""`).
`PyTable` models the table-info dicts passed around the pipeline; absent
dict keys are the defaulted fields. -/

structure Df where
  cols : List String
  rows : List (List String)
deriving Repr, DecidableEq

structure PyTable where
  table_id : String := ""
  row_range : Nat × Nat := (0, 0)
  col_range : Nat × Nat := (0, 0)
  dataframe : Df := ⟨[], []⟩
  title : Option String := none
  is_wide_table : Bool := false
  has_header_rows : Bool := false
  sheet_name : Option String := none
  source_id : Option String := none
  sheet_hash : Option String := none
deriving Repr, DecidableEq

/-- `grid[r, c]` on the numpy value grid (`df.fillna("").astype(str).values`;
cells are already strings, so this is plain access). -/
def gridCell (rows : List (List String)) (r c : Nat) : String :=
  ((rows[r]?).bind (fun row => row[c]?)).getD ""

/-- `non_empty[r, c]`: the occupancy mask. -/
def nonEmptyCell (rows : List (List String)) (r c : Nat) : Bool :=
  gridCell rows r c ≠ ""

/-- `np.sum(non_empty[r, c0:c1])`. -/
def countNonEmpty (rows : List (List String)) (r c0 c1 : Nat) : Nat :=
  ((List.range (c1 - c0)).filter (fun i => nonEmptyCell rows r (c0 + i))).length

/-- `while c1 < cols and non_empty[r, c1]: c1 += 1` (fuel-bounded; the fuel
passed by callers always dominates the loop's step count). -/
def expandRight (rows : List (List String)) (r ncols : Nat) : Nat → Nat → Nat
  | 0, c1 => c1
  | f + 1, c1 =>
    if c1 < ncols ∧ nonEmptyCell rows r c1 then expandRight rows r ncols f (c1 + 1)
    else c1

/-- `while c0 > 0 and non_empty[r, c0 - 1]: c0 -= 1`. -/
def expandLeft (rows : List (List String)) (r : Nat) : Nat → Nat → Nat
  | 0, c0 => c0
  | f + 1, c0 =>
    if 0 < c0 ∧ nonEmptyCell rows r (c0 - 1) then expandLeft rows r f (c0 - 1)
    else c0

/-- The downward-growth loop of `expand_table_region`: state is
`(r1, c0, c1, empty_row_count)`.  A row joins the region when
`count ≥ max(1, 0.3·width)` (exact integer form `count ≥ 1 ∧ 10·count ≥
3·width`); after a joined row the column range may widen by at most two
columns per side, never contract. -/
def expandDown (rows : List (List String)) (nrows ncols : Nat) :
    Nat → Nat × Nat × Nat × Nat → Nat × Nat × Nat × Nat
  | 0, st => st
  | f + 1, (r1, c0, c1, ec) =>
    if r1 < nrows ∧ ec < 2 then
      let cnt := countNonEmpty rows r1 c0 c1
      if 1 ≤ cnt ∧ 3 * (c1 - c0) ≤ 10 * cnt then
        let tc0 := expandLeft rows r1 ncols c0
        let tc1 := expandRight rows r1 ncols ncols c1
        let c0n := if c0 ≤ tc0 + 2 then tc0 else c0
        let c1n := if tc1 ≤ c1 + 2 then tc1 else c1
        expandDown rows nrows ncols f (r1 + 1, c0n, c1n, 0)
      else expandDown rows nrows ncols f (r1 + 1, c0, c1, ec + 1)
    else (r1, c0, c1, ec)

/-- `expand_table_region(non_empty, assigned, start_r, start_c, rows, cols)`:
returns `(r0, r1, c0, c1)`; trailing below-threshold rows are retracted. -/
def expand_table_region (rows : List (List String)) (nrows ncols startR startC : Nat) :
    Nat × Nat × Nat × Nat :=
  let c1 := expandRight rows startR ncols ncols (startC + 1)
  let c0 := expandLeft rows startR ncols startC
  let res := expandDown rows nrows ncols nrows (startR + 1, c0, c1, 0)
  match res with
  | (r1, c0f, c1f, ec) => (startR, r1 - ec, c0f, c1f)

/-- A claimed rectangle `(r0, r1, c0, c1)` of the `assigned` mask. -/
abbrev Rect := Nat × Nat × Nat × Nat

def inRect (rect : Rect) (r c : Nat) : Bool :=
  match rect with
  | (r0, r1, c0, c1) => decide (r0 ≤ r) && decide (r < r1)
      && decide (c0 ≤ c) && decide (c < c1)

/-- `assigned[r, c]`: the mask is only ever set rectangle-wise
(`assigned[r0:r1, c0:c1] = True`), so it is the union of the claimed
rectangles. -/
def assignedAt (rects : List Rect) (r c : Nat) : Bool :=
  rects.any (fun rect => inRect rect r c)

/-- `df.iloc[r0:r1, c0:c1]` with `reset_index(drop=True)`. -/
def dfSlice (df : Df) (r0 r1 c0 c1 : Nat) : Df :=
  { cols := (df.cols.drop c0).take (c1 - c0)
    rows := ((df.rows.drop r0).take (r1 - r0)).map
      (fun row => (row.drop c0).take (c1 - c0)) }

/-- One iteration of the seed scan of `detect_tables_custom`: state is
`(assigned, tables, table_id)`. -/
def detectStep (df : Df) (nrows ncols : Nat)
    (state : List Rect × List PyTable × Nat) (pos : Nat × Nat) :
    List Rect × List PyTable × Nat :=
  match state, pos with
  | (assigned, tables, tid), (r, c) =>
    if nonEmptyCell df.rows r c ∧ ¬ assignedAt assigned r c then
      match expand_table_region df.rows nrows ncols r c with
      | (r0, r1, c0, c1) =>
        if 2 ≤ r1 - r0 ∧ 2 ≤ c1 - c0 then
          -- title-row heuristic: row above joins when occupied but under 60 %
          -- of the first row's occupancy (exact form 10·above < 6·current)
          let r0n := if 0 < r0 then
              let above := countNonEmpty df.rows (r0 - 1) c0 c1
              let cur := countNonEmpty df.rows r0 c0 c1
              if 0 < above ∧ 10 * above < 6 * cur then r0 - 1 else r0
            else r0
          (assigned ++ [(r0n, r1, c0, c1)],
           tables ++ [{ table_id := "table_" ++ toString tid,
                        row_range := (r0n, r1),
                        col_range := (c0, c1),
                        dataframe := dfSlice df r0n r1 c0 c1 }],
           tid + 1)
        else
          (assigned ++ [(r0, r1, c0, c1)], tables, tid)
    else state

/-- `detect_tables_custom(df)`: row-major seed scan over the grid. -/
def detect_tables_custom (df : Df) : List PyTable :=
  let nrows := df.rows.length
  let ncols := df.cols.length
  let positions := (List.range nrows).flatMap
    (fun r => (List.range ncols).map (fun c => (r, c)))
  (positions.foldl (detectStep df nrows ncols) ([], [], 0)).2.1

/-- A cell `(r, c)` lies inside a detected table's
`row_range × col_range` rectangle. -/
def cellInTable (t : PyTable) (r c : Nat) : Prop :=
  t.row_range.1 ≤ r ∧ r < t.row_range.2 ∧ t.col_range.1 ≤ c ∧ c < t.col_range.2

instance (t : PyTable) (r c : Nat) : Decidable (cellInTable t r c) := by
  unfold cellInTable
  infer_instance

/-- The 4×6 grid on which the segmenter produces overlapping regions (the
downward column-widening ignores the `assigned` mask). -/
def c2grid : Df :=
  { cols := ["0", "1", "2", "3", "4", "5"]
    rows := [["A", "A", "", "B", "B", "B"],
             ["A", "A", "", "B", "B", "B"],
             ["", "X", "X", "X", "X", "X"],
             ["", "", "", "", "", ""]] }

/-! ## Table cleaner (src/table detector/table_cleaner.py) and
detection wrapper (src/data_sources/gsheet/table_detection.py) -/

/-- `row.astype(str).str.strip().replace('', NA).notna().sum()`: the number
of cells that are non-blank after stripping. -/
def countStripNonEmpty (row : List String) : Nat :=
  (row.filter (fun s => pyStrip s ≠ "")).length

/-- Promoted header names: stripped cell text, or the positional placeholder
`Column_<i>` for blank header cells. -/
def headerNames (hdr : List String) : List String :=
  hdr.enum.map (fun p =>
    if pyStrip p.2 ≠ "" then pyStrip p.2 else "Column_" ++ toString p.1)

/-- The trailing-blank-row trim loop: returns the kept rows and how many
rows were removed. -/
def trimTrailingBlank (rows : List (List String)) :
    List (List String) × Nat :=
  let rev := rows.reverse
  ((rev.dropWhile (fun r => countStripNonEmpty r == 0)).reverse,
   (rev.takeWhile (fun r => countStripNonEmpty r == 0)).length)

/-- One table's pass through `clean_detected_tables`: wide tables (or tables
with `header_rows`) pass through untouched; tables with fewer than two rows
are re-emitted as a fresh dict; otherwise title detection, header promotion
and trailing-blank trimming run, and a table left with no data rows is
dropped (`none`). -/
def cleanOne (t : PyTable) (keepTitle : Bool) : Option PyTable :=
  if t.is_wide_table || t.has_header_rows then some t
  else
    let df := t.dataframe
    let r0 := t.row_range.1
    let r1 := t.row_range.2
    if df.rows.length < 2 then
      some { table_id := t.table_id, row_range := (r0, r1),
             col_range := t.col_range, dataframe := df }
    else
      match df.rows with
      | firstRow :: secondRow :: restRows =>
        let nf := countStripNonEmpty firstRow
        let ns := countStripNonEmpty secondRow
        -- title criteria: ≤ 2 non-blank cells, or < 60 % of the second
        -- row's count (exact integer form 10·nf < 6·ns)
        let isTitle : Bool := decide (nf ≤ 2) || (decide (0 < ns) && decide (10 * nf < 6 * ns))
        let titleRow : Option String :=
          if isTitle && keepTitle then
            (firstRow.find? (fun cell => pyStrip cell ≠ "")).map pyStrip
          else none
        let df1rows := if isTitle then secondRow :: restRows else df.rows
        let r0a := if isTitle then r0 + 1 else r0
        -- header promotion: coverage ≥ max(2, 0.4·ncols)
        let step2 : Df × Nat :=
          match df1rows with
          | [] => (⟨df.cols, df1rows⟩, r0a)
          | hdr :: tailRows =>
            let nh := countStripNonEmpty hdr
            if 2 ≤ nh ∧ 4 * df.cols.length ≤ 10 * nh then
              (⟨headerNames hdr, tailRows⟩, r0a + 1)
            else (⟨df.cols, df1rows⟩, r0a)
        match (trimTrailingBlank step2.1.rows).1 with
        | [] => none
        | keptRow :: keptRest =>
          some { table_id := t.table_id,
                 row_range := (step2.2, r1 - (trimTrailingBlank step2.1.rows).2),
                 col_range := t.col_range,
                 dataframe := ⟨step2.1.cols, keptRow :: keptRest⟩,
                 title := if truthy titleRow then titleRow else none }
      | _ => none

/-- `clean_detected_tables(tables, keep_title)`. -/
def clean_detected_tables (tables : List PyTable) (keepTitle : Bool) : List PyTable :=
  tables.filterMap (fun t => cleanOne t keepTitle)

/-- The whole-grid fallback table built by `detect_and_clean_tables`. -/
def fallbackWholeTable (df : Df) (sheetName : String) : PyTable :=
  { table_id := "table_0", row_range := (0, df.rows.length),
    col_range := (0, df.cols.length), dataframe := df,
    sheet_name := some sheetName }

/-- `detect_and_clean_tables(df, sheet_name)`: the outcome of the
`detect_tables_custom` call inside its `try` block is passed explicitly —
`Except.error` models the detector raising, `Except.ok` its return value.
A raise or an empty detection falls back to one whole-grid table. -/
def detect_and_clean_tables (df : Df) (sheetName : String)
    (segResult : Except String (List PyTable)) : List PyTable :=
  match segResult with
  | .error _ => [fallbackWholeTable df sheetName]
  | .ok [] => [fallbackWholeTable df sheetName]
  | .ok (t :: ts) =>
      (clean_detected_tables (t :: ts) true).map
        (fun u => { u with sheet_name := some sheetName })

/-- C7's input region: the 4×2 grid
`[["Sales", ""], ["Name", "Qty"], ["A", "1"], ["B", "2"]]`. -/
def c7table : PyTable :=
  { table_id := "table_0", row_range := (0, 4), col_range := (0, 2),
    dataframe := ⟨["0", "1"],
      [["Sales", ""], ["Name", "Qty"], ["A", "1"], ["B", "2"]]⟩ }

/-- C8's counterexample input: a detected table whose dataframe has no rows
(the `len(df) < 2` shortcut re-emits it instead of dropping it). -/
def c8empty : PyTable := { table_id := "t0", dataframe := ⟨[], []⟩ }

/-! ## Snapshot loader and change detector
(src/data_sources/gsheet/snapshot_loader.py,
src/data_sources/gsheet/change_detector.py, src/run_query.py)

DuckDB, the metadata JSON file and the registry JSON file are modelled as
explicit state (`SnapshotState`); python dicts become ordered association
lists with dict-update (`alistUpsert`) semantics.  The externally visible
calls are recorded as a `SyncEvent` trace in program order. -/

/-- The `[^a-zA-Z0-9]` character class of `sanitize_table_name`. -/
def isAlnum (c : Char) : Bool :=
  ('a' ≤ c && c ≤ 'z') || ('A' ≤ c && c ≤ 'Z') || ('0' ≤ c && c ≤ '9')

/-- `re.sub(r'_+', '_', ...)`: collapse runs of underscores (the flag says
whether the previous kept character was an underscore). -/
def collapseUnderscores : Bool → List Char → List Char
  | _, [] => []
  | prevU, c :: rest =>
    if c = '_' then
      if prevU then collapseUnderscores true rest
      else '_' :: collapseUnderscores true rest
    else c :: collapseUnderscores false rest

/-- `.strip('_')`. -/
def stripUnderscores (l : List Char) : List Char :=
  ((l.dropWhile (fun c => c == '_')).reverse.dropWhile (fun c => c == '_')).reverse

/-- `sanitize_table_name(name)`: non-alphanumerics to `_`, collapse runs,
strip leading/trailing underscores. -/
def sanitize_table_name (s : String) : String :=
  ⟨stripUnderscores (collapseUnderscores false
    (s.data.map (fun c => if isAlnum c then c else '_')))⟩

/-- `name_counts` lookup (`base_name in name_counts`). -/
def getCount : List (String × Nat) → String → Option Nat
  | [], _ => none
  | (k0, v0) :: rest, k => if k0 = k then some v0 else getCount rest k

/-- `name_counts[base_name] = v` (dict update). -/
def setCount : List (String × Nat) → String → Nat → List (String × Nat)
  | [], k, v => [(k, v)]
  | (k0, v0) :: rest, k, v =>
    if k0 = k then (k0, v) :: rest else (k0, v0) :: setCount rest k v

/-- The collision-resolution step of `load_snapshot`: a seen base name gets
the incremented counter as suffix (`base_<n>`), a fresh one keeps the bare
base name with its counter set to 1. -/
def resolveName (m : List (String × Nat)) (base : String) :
    String × List (String × Nat) :=
  match getCount m base with
  | some n => (base ++ "_" ++ toString (n + 1), setCount m base (n + 1))
  | none => (base, setCount m base 1)

def assignGo (m : List (String × Nat)) : List String → List String
  | [] => []
  | b :: bs =>
    let r := resolveName m b
    r.1 :: assignGo r.2 bs

/-- The sequence of final table names `load_snapshot` produces for a given
sequence of base names within one load (the `name_counts` fold). -/
def assignFinalNames (bases : List String) : List String := assignGo [] bases

structure SheetRecord where
  hash : Option String := none
  table_count : Nat := 0
  source_id : Option String := none
  last_synced : Option String := none
deriving Repr, DecidableEq

/-- The persisted sheet registry (`sheet_state.json`). -/
structure Registry where
  spreadsheet_id : Option String := none
  sheets : List (String × SheetRecord) := []
deriving Repr, DecidableEq

/-- One entry of the persisted table metadata (`table_metadata.json`). -/
structure TableMeta where
  source_id : Option String := none
  sheet_name : Option String := none
  table_index : Nat := 0
  row_count : Nat := 0
  created_at : String := ""
deriving Repr, DecidableEq

/-- The persistent state the loader mutates: the DuckDB tables, the table
metadata file, and the sheet registry file. -/
structure SnapshotState where
  duck : List (String × Df) := []
  meta : List (String × TableMeta) := []
  registry : Registry := {}
deriving Repr, DecidableEq

/-- Externally visible calls of one sync cycle, in program order. -/
inductive SyncEvent where
  | resetDb
  | dropTable (n : String)
  | createTable (n : String)
  | saveTableMeta
  | saveRegistry
  | chromaClear
  | chromaRebuildAll
  | chromaRebuildFor (ids : List String)
deriving Repr, DecidableEq

def alistLookup {α : Type} : List (String × α) → String → Option α
  | [], _ => none
  | p :: rest, k => if p.1 = k then some p.2 else alistLookup rest k

def alistRemove {α : Type} (m : List (String × α)) (k : String) : List (String × α) :=
  m.filter (fun p => p.1 != k)

/-- Python-dict assignment: replace in place if the key exists, else append. -/
def alistUpsert {α : Type} (m : List (String × α)) (k : String) (v : α) :
    List (String × α) :=
  if (m.find? (fun p => p.1 == k)).isSome then
    m.map (fun p => if p.1 == k then (k, v) else p)
  else m ++ [(k, v)]

/-- `sorted()` on sheet names (code-point lexicographic). -/
def charListLe : List Char → List Char → Bool
  | [], _ => true
  | _ :: _, [] => false
  | a :: as, b :: bs =>
    if a.toNat < b.toNat then true
    else if b.toNat < a.toNat then false
    else charListLe as bs

def insertSorted (x : String) : List String → List String
  | [] => [x]
  | y :: ys => if charListLe x.data y.data then x :: y :: ys else y :: insertSorted x ys

def sortStrings (l : List String) : List String := l.foldr insertSorted []

/-- `delete_tables_by_source_id(source_id, conn)`: drops every DuckDB table
whose metadata entry carries this `source_id` and removes those entries from
the on-disk metadata (saving it when anything was deleted). -/
def delete_tables_by_source_id (sid : String) (duck : List (String × Df))
    (meta : List (String × TableMeta)) :
    List (String × Df) × List (String × TableMeta) × List SyncEvent :=
  let toDelete := (meta.filter (fun p => p.2.source_id == some sid)).map (fun p => p.1)
  (toDelete.foldl (fun d n => alistRemove d n) duck,
   toDelete.foldl (fun m n => alistRemove m n) meta,
   toDelete.map SyncEvent.dropTable
     ++ (if toDelete.isEmpty then [] else [SyncEvent.saveTableMeta]))

/-- The flattened `(sheet, 1-based index, table)` sequence the creation loop
of `load_snapshot` walks (`for sheet in sheets_to_rebuild: for idx, t in
enumerate(tables, 1)`), skipping sheets absent from `sheets_with_tables`. -/
def rebuildEntries (swt : List (String × List PyTable)) (sheets : List String) :
    List (String × Nat × PyTable) :=
  sheets.flatMap (fun sheet =>
    match alistLookup swt sheet with
    | none => []
    | some tables => tables.enum.map (fun p => (sheet, p.1 + 1, p.2)))

/-- The base name of one table: the sanitized title when truthy, else
`<sanitized sheet>_Table<idx>`. -/
def baseNameFor (sheet : String) (idx : Nat) (t : PyTable) : String :=
  if truthy t.title then sanitize_table_name (t.title.getD "")
  else sanitize_table_name sheet ++ "_Table" ++ toString idx

/-- One iteration of the creation loop: resolve the final name, `DROP TABLE
IF EXISTS` + `CREATE TABLE`, and update the in-memory metadata copy.  State
is `(name_counts, duck, table_metadata, events)`. -/
def createStep (now : String)
    (st : List (String × Nat) × List (String × Df) × List (String × TableMeta) × List SyncEvent)
    (e : String × Nat × PyTable) :
    List (String × Nat) × List (String × Df) × List (String × TableMeta) × List SyncEvent :=
  match st, e with
  | (counts, duck, meta, evs), (sheet, idx, t) =>
    let base := baseNameFor sheet idx t
    let r := resolveName counts base
    let duck2 := alistRemove duck r.1 ++ [(r.1, t.dataframe)]
    let meta2 := alistUpsert meta r.1
      { source_id := t.source_id, sheet_name := t.sheet_name, table_index := idx,
        row_count := t.dataframe.rows.length, created_at := now }
    (r.2, duck2, meta2,
     evs ++ [SyncEvent.dropTable r.1, SyncEvent.createTable r.1])

/-- `compute_current_sheet_hashes(sheets_with_tables)`: the first table's
`sheet_hash` (falsy → `"UNKNOWN"`), the table count, and the
`spreadsheet_id#sheet_name` source id; sheets with no tables are skipped. -/
def compute_current_sheet_hashes (swt : List (String × List PyTable))
    (spreadsheetId : String) : List (String × SheetRecord) :=
  swt.filterMap (fun p =>
    match p.2 with
    | [] => none
    | t :: _ =>
      some (p.1,
        { hash := some (match t.sheet_hash with
                        | some h => if h = "" then "UNKNOWN" else h
                        | none => "UNKNOWN")
          table_count := p.2.length
          source_id := some (spreadsheetId ++ "#" ++ p.1) }))

/-- `mark_synced(sheets_with_tables)`: recompute the per-sheet hash records,
stamp `last_synced`, and persist the registry. -/
def mark_synced (swt : List (String × List PyTable)) (spreadsheetId now : String) :
    Registry :=
  { spreadsheet_id := some spreadsheetId
    sheets := (compute_current_sheet_hashes swt spreadsheetId).map
      (fun p => (p.1, { p.2 with last_synced := some now })) }

/-- `get_changed_sheets(old_registry, current_sheet_hashes)`: a sheet is
changed when new, when its stored hash is `None`, or when the hash differs.
Deleted sheets are only logged. -/
def get_changed_sheets (reg : Registry) (cur : List (String × SheetRecord)) :
    List String :=
  cur.filterMap (fun p =>
    match alistLookup reg.sheets p.1 with
    | none => some p.1
    | some oldmd =>
      match oldmd.hash with
      | none => some p.1
      | some oh => if p.2.hash ≠ some oh then some p.1 else none)

/-- `needs_refresh(sheets_with_tables)` as a pure function of the loaded
registry, the configured spreadsheet id and the pre-fetched sheets: returns
`(needs_refresh, full_reset_required, changed_sheets)`. -/
def needs_refresh (reg : Registry) (currentId : String)
    (swt : List (String × List PyTable)) : Bool × Bool × List String :=
  if (match reg.spreadsheet_id with
      | some s => decide (s ≠ "") && decide (s ≠ currentId)
      | none => false) = true then (true, true, [])
  else if reg.sheets.isEmpty then (true, true, [])
  else
    let cur := compute_current_sheet_hashes swt currentId
    let changed := get_changed_sheets reg cur
    if changed.isEmpty then (false, false, []) else (true, false, changed)

/-- `load_snapshot(sheets_with_tables, full_reset, changed_sheets)`.
Faithfully, the in-memory `table_metadata` copy is loaded once up front; the
incremental branch's `delete_tables_by_source_id` calls update the *disk*
metadata, and the final `save_table_metadata(table_metadata)` writes the
in-memory copy (with the creation loop's upserts) back over it.  Ends by
calling `mark_synced`. -/
def load_snapshot (swt : List (String × List PyTable)) (fullReset : Bool)
    (changedSheets : List String) (spreadsheetId now : String)
    (st : SnapshotState) : SnapshotState × List SyncEvent :=
  match (if fullReset then
      (([] : List (String × Df)), ([] : List (String × TableMeta)),
       sortStrings (swt.map (fun p => p.1)),
       [SyncEvent.resetDb, SyncEvent.saveTableMeta])
    else if changedSheets.isEmpty = false then
      match changedSheets.foldl (fun acc sheet =>
        match acc with
        | (duck, meta, evs) =>
          match alistLookup swt sheet with
          | none => (duck, meta, evs)
          | some [] => (duck, meta, evs)
          | some (t :: _) =>
            match t.source_id with
            | none => (duck, meta, evs)
            | some sid =>
              if sid = "" then (duck, meta, evs)
              else
                match delete_tables_by_source_id sid duck meta with
                | (d2, m2, evs2) => (d2, m2, evs ++ evs2))
        (st.duck, st.meta, ([] : List SyncEvent)) with
      | (duck1, meta1, evs1) => (duck1, meta1, changedSheets, evs1)
    else
      (st.duck, st.meta, sortStrings (swt.map (fun p => p.1)),
       ([] : List SyncEvent))) with
  | (duck1, _diskMeta1, sheetsToRebuild, evs1) =>
    let memMeta0 := if fullReset then ([] : List (String × TableMeta)) else st.meta
    match (rebuildEntries swt sheetsToRebuild).foldl (createStep now)
        (([] : List (String × Nat)), duck1, memMeta0, ([] : List SyncEvent)) with
    | (_, duck2, meta2, evs2) =>
      ({ duck := duck2, meta := meta2,
         registry := mark_synced swt spreadsheetId now },
       evs1 ++ evs2 ++ [SyncEvent.saveTableMeta, SyncEvent.saveRegistry])

/-- The sync portion of `run(question)` (src/run_query.py, lines 53–108):
classify via `needs_refresh`, then either full reset (ChromaDB clear,
`load_snapshot(full_reset=True)`, ChromaDB full rebuild) or incremental
rebuild (`load_snapshot(changed_sheets=...)`, then ChromaDB rebuild for the
affected source ids, falling back to a full rebuild when none are known). -/
def runSync (swt : List (String × List PyTable)) (currentId now : String)
    (st : SnapshotState) : SnapshotState × List SyncEvent :=
  match needs_refresh st.registry currentId swt with
  | (needsFlag, fullReset, changed) =>
    if needsFlag then
      if fullReset then
        match load_snapshot swt true [] currentId now st with
        | (st2, evs) =>
          (st2, SyncEvent.chromaClear :: evs ++ [SyncEvent.chromaRebuildAll])
      else
        let sourceIds := changed.filterMap (fun sheet =>
          match alistLookup swt sheet with
          | none => none
          | some [] => none
          | some (t :: _) =>
            match t.source_id with
            | some sid => if sid = "" then none else some sid
            | none => none)
        match load_snapshot swt false changed currentId now st with
        | (st2, evs) =>
          (st2, evs ++ [if sourceIds.isEmpty then SyncEvent.chromaRebuildAll
                        else SyncEvent.chromaRebuildFor sourceIds])
    else (st, [])

def isChromaRebuild : SyncEvent → Bool
  | SyncEvent.chromaRebuildAll => true
  | SyncEvent.chromaRebuildFor _ => true
  | _ => false

/-- `true` iff the trace persists the registry (a `save_sheet_registry`
call) with no semantic-index rebuild having completed before it — the
violation C1 denies can happen. -/
def persistsRegistryBeforeSemanticRebuild : List SyncEvent → Bool
  | [] => false
  | e :: rest =>
    if e = SyncEvent.saveRegistry then true
    else if isChromaRebuild e then false
    else persistsRegistryBeforeSemanticRebuild rest

/-- C1's concrete cycle: one sheet, empty registry (first run), so the
orchestrator takes the full-reset path. -/
def c1swt : List (String × List PyTable) :=
  [("S1", [{ table_id := "table_0",
             dataframe := ⟨["a", "b"], [["1", "2"], ["3", "4"]]⟩,
             source_id := some "sid#S1", sheet_name := some "S1",
             sheet_hash := some "h1" }])]

/-- C3's initial state: sheet B's table `Sales` exists with its metadata;
the registry knows both sheets. -/
def c3dfB : Df := ⟨["x"], [["b1"], ["b2"]]⟩

def c3dfA : Df := ⟨["y"], [["a1"], ["a2"], ["a3"]]⟩

def c3state : SnapshotState :=
  { duck := [("Sales", c3dfB)]
    meta := [("Sales", { source_id := some "sid#B", sheet_name := some "B",
                         table_index := 1, row_count := 2, created_at := "t0" })]
    registry := { spreadsheet_id := some "sid"
                  sheets := [("A", { hash := some "hA0" }),
                             ("B", { hash := some "hB" })] } }

/-- C3's fetched sheets: sheet A now has a table *titled* `Sales`; sheet B
is unchanged. -/
def c3swt : List (String × List PyTable) :=
  [("A", [{ table_id := "table_0", title := some "Sales", dataframe := c3dfA,
            source_id := some "sid#A", sheet_name := some "A",
            sheet_hash := some "hA1" }]),
   ("B", [{ table_id := "table_0", dataframe := c3dfB,
            source_id := some "sid#B", sheet_name := some "B",
            sheet_hash := some "hB" }])]

/-- C4's fetched sheets: two tables on one sheet, both titled `Title`. -/
def c4swt : List (String × List PyTable) :=
  [("S", [{ table_id := "table_0", title := some "Title",
            dataframe := ⟨["a"], [["1"], ["2"]]⟩,
            source_id := some "sid#S", sheet_name := some "S",
            sheet_hash := some "hS" },
          { table_id := "table_1", title := some "Title",
            dataframe := ⟨["a"], [["3"], ["4"]]⟩,
            source_id := some "sid#S", sheet_name := some "S",
            sheet_hash := some "hS" }])]

/-! ## Lemmas: canonical serialization round-trip and injectivity -/

theorem pyStrip_empty : pyStrip "" = "" := rfl

theorem normalizeCell_eq_stripCell : ∀ c : Option String, normalizeCell c = stripCell c
  | none => rfl
  | some s => by
      by_cases h : s = "" <;> simp [normalizeCell, stripCell, h, pyStrip_empty]

theorem unhex_hexDigit : ∀ n, n < 16 → unhex (hexDigit n) = some n := by decide

theorem zero_eq_hexDigit : ('0' : Char) = hexDigit 0 := by decide

theorem char_valid_range (c : Char) :
    c.toNat < 55296 ∨ (57343 < c.toNat ∧ c.toNat < 1114112) := by
  have h := c.valid
  unfold UInt32.isValidChar Nat.isValidChar at h
  exact h

theorem unhex4_eval (a b c d : Nat) (ha : a < 16) (hb : b < 16) (hc : c < 16) (hd : d < 16) :
    unhex4 (hexDigit a) (hexDigit b) (hexDigit c) (hexDigit d)
      = some (((a * 16 + b) * 16 + c) * 16 + d) := by
  simp [unhex4, unhex_hexDigit _ ha, unhex_hexDigit _ hb, unhex_hexDigit _ hc,
    unhex_hexDigit _ hd]

theorem parseBody_u (a b c d : Nat) (ha : a < 16) (hb : b < 16) (hc : c < 16)
    (hd : d < 16) (f : Nat) (rest : List Char) :
    parseBody (f + 1) ('\\' :: 'u' :: hexDigit a :: hexDigit b :: hexDigit c
        :: hexDigit d :: rest)
      = (parseBody f rest).map
          (fun p => ((((a * 16 + b) * 16 + c) * 16 + d) :: p.1, p.2)) := by
  simp only [parseBody]
  simp [unhex4_eval a b c d ha hb hc hd]

theorem parseBody_escape_bmp (c : Char) (hc : c.toNat < 65536) (f : Nat)
    (rest : List Char) :
    parseBody (f + 1) (escapeChar c ++ rest)
      = (parseBody f rest).map (fun p => (c.toNat :: p.1, p.2)) := by
  unfold escapeChar
  by_cases h1 : c = '"'
  · subst h1; simp [parseBody]
  · rw [if_neg h1]
    by_cases h2 : c = '\\'
    · subst h2; simp [parseBody]
    · rw [if_neg h2]
      by_cases h3 : c = '\n'
      · subst h3; simp [parseBody]
      · rw [if_neg h3]
        by_cases h4 : c = '\r'
        · subst h4; simp [parseBody]
        · rw [if_neg h4]
          by_cases h5 : c = '\t'
          · subst h5; simp [parseBody]
          · rw [if_neg h5]
            by_cases h6 : c = Char.ofNat 8
            · subst h6; simp [parseBody]
            · rw [if_neg h6]
              by_cases h7 : c = Char.ofNat 12
              · subst h7; simp [parseBody]
              · rw [if_neg h7]
                by_cases h8 : c.toNat < 32
                · rw [if_pos h8]
                  rw [List.cons_append, List.cons_append, List.cons_append,
                    List.cons_append, List.cons_append, List.cons_append,
                    List.nil_append, zero_eq_hexDigit,
                    parseBody_u 0 0 (c.toNat / 16) (c.toNat % 16)
                      (by omega) (by omega) (by omega) (by omega)]
                  have hv : ((0 * 16 + 0) * 16 + c.toNat / 16) * 16 + c.toNat % 16
                      = c.toNat := by omega
                  rw [hv]
                · rw [if_neg h8]
                  by_cases h9 : c.toNat < 127
                  · rw [if_pos h9]
                    simp [parseBody, h1, h2]
                  · rw [if_neg h9, if_pos hc]
                    rw [List.cons_append, List.cons_append, List.cons_append,
                      List.cons_append, List.cons_append, List.cons_append,
                      List.nil_append,
                      parseBody_u (c.toNat / 4096 % 16) (c.toNat / 256 % 16)
                        (c.toNat / 16 % 16) (c.toNat % 16)
                        (by omega) (by omega) (by omega) (by omega)]
                    have hv : ((c.toNat / 4096 % 16 * 16 + c.toNat / 256 % 16) * 16
                        + c.toNat / 16 % 16) * 16 + c.toNat % 16 = c.toNat := by omega
                    rw [hv]

theorem parseBody_escape_astral (c : Char) (hc : ¬ c.toNat < 65536) (f : Nat)
    (rest : List Char) :
    parseBody (f + 2) (escapeChar c ++ rest)
      = (parseBody f rest).map
          (fun p => ((55296 + (c.toNat - 65536) / 1024)
            :: (56320 + (c.toNat - 65536) % 1024) :: p.1, p.2)) := by
  have hub : c.toNat < 1114112 := by
    rcases char_valid_range c with h | ⟨_, h⟩
    · omega
    · exact h
  have h127 : ¬ c.toNat < 127 := by omega
  have h32 : ¬ c.toNat < 32 := by omega
  have h1 : ¬ c = '"' := by intro h; subst h; exact hc (by decide)
  have h2 : ¬ c = '\\' := by intro h; subst h; exact hc (by decide)
  have h3 : ¬ c = '\n' := by intro h; subst h; exact hc (by decide)
  have h4 : ¬ c = '\r' := by intro h; subst h; exact hc (by decide)
  have h5 : ¬ c = '\t' := by intro h; subst h; exact hc (by decide)
  have h6 : ¬ c = Char.ofNat 8 := by intro h; subst h; exact hc (by decide)
  have h7 : ¬ c = Char.ofNat 12 := by intro h; subst h; exact hc (by decide)
  rw [show escapeChar c
      = '\\' :: 'u' :: hexDigit ((55296 + (c.toNat - 65536) / 1024) / 4096 % 16)
        :: hexDigit ((55296 + (c.toNat - 65536) / 1024) / 256 % 16)
        :: hexDigit ((55296 + (c.toNat - 65536) / 1024) / 16 % 16)
        :: hexDigit ((55296 + (c.toNat - 65536) / 1024) % 16)
        :: '\\' :: 'u' :: hexDigit ((56320 + (c.toNat - 65536) % 1024) / 4096 % 16)
        :: hexDigit ((56320 + (c.toNat - 65536) % 1024) / 256 % 16)
        :: hexDigit ((56320 + (c.toNat - 65536) % 1024) / 16 % 16)
        :: hexDigit ((56320 + (c.toNat - 65536) % 1024) % 16) :: [] from by
    unfold escapeChar
    rw [if_neg h1, if_neg h2, if_neg h3, if_neg h4, if_neg h5, if_neg h6,
      if_neg h7, if_neg h32, if_neg h127, if_neg hc]]
  have hq : (c.toNat - 65536) / 1024 ≤ 1023 := by omega
  have hm : (c.toNat - 65536) % 1024 ≤ 1023 :=
    Nat.le_of_lt_succ (Nat.mod_lt _ (by omega))
  rw [List.cons_append, List.cons_append, List.cons_append, List.cons_append,
    List.cons_append, List.cons_append, List.cons_append, List.cons_append,
    List.cons_append, List.cons_append, List.cons_append, List.cons_append,
    List.nil_append]
  rw [parseBody_u ((55296 + (c.toNat - 65536) / 1024) / 4096 % 16)
      ((55296 + (c.toNat - 65536) / 1024) / 256 % 16)
      ((55296 + (c.toNat - 65536) / 1024) / 16 % 16)
      ((55296 + (c.toNat - 65536) / 1024) % 16)
      (by omega) (by omega) (by omega) (by omega)]
  rw [parseBody_u ((56320 + (c.toNat - 65536) % 1024) / 4096 % 16)
      ((56320 + (c.toNat - 65536) % 1024) / 256 % 16)
      ((56320 + (c.toNat - 65536) % 1024) / 16 % 16)
      ((56320 + (c.toNat - 65536) % 1024) % 16)
      (by omega) (by omega) (by omega) (by omega)]
  have hvhi : (((55296 + (c.toNat - 65536) / 1024) / 4096 % 16 * 16
      + (55296 + (c.toNat - 65536) / 1024) / 256 % 16) * 16
      + (55296 + (c.toNat - 65536) / 1024) / 16 % 16) * 16
      + (55296 + (c.toNat - 65536) / 1024) % 16
      = 55296 + (c.toNat - 65536) / 1024 := by omega
  have hvlo : (((56320 + (c.toNat - 65536) % 1024) / 4096 % 16 * 16
      + (56320 + (c.toNat - 65536) % 1024) / 256 % 16) * 16
      + (56320 + (c.toNat - 65536) % 1024) / 16 % 16) * 16
      + (56320 + (c.toNat - 65536) % 1024) % 16
      = 56320 + (c.toNat - 65536) % 1024 := by omega
  rw [hvhi, hvlo]
  cases parseBody f rest <;> rfl


theorem unitsOf_cons (c : Char) (cs : List Char) :
    unitsOf (c :: cs) = charUnits c ++ unitsOf cs := by
  simp [unitsOf]

theorem parseBody_rt : ∀ (s : List Char) (f : Nat) (rest : List Char),
    (unitsOf s).length < f →
    parseBody f (escBody s ++ '"' :: rest) = some (unitsOf s, rest)
  | [], f, rest, h => by
      obtain ⟨f', rfl⟩ : ∃ f', f = f' + 1 := ⟨f - 1, by omega⟩
      simp [escBody, unitsOf, parseBody]
  | c :: cs, f, rest, h => by
      have hesc : escBody (c :: cs) = escapeChar c ++ escBody cs := by
        simp [escBody]
      rw [hesc, List.append_assoc]
      by_cases hc : c.toNat < 65536
      · have hcu : charUnits c = [c.toNat] := by simp [charUnits, hc]
        rw [unitsOf_cons, hcu] at h ⊢
        obtain ⟨f', rfl⟩ : ∃ f', f = f' + 1 := ⟨f - 1, by omega⟩
        rw [parseBody_escape_bmp c hc, parseBody_rt cs f' rest (by simpa using h)]
        rfl
      · have hcu : charUnits c = [55296 + (c.toNat - 65536) / 1024,
            56320 + (c.toNat - 65536) % 1024] := by simp [charUnits, hc]
        rw [unitsOf_cons, hcu] at h ⊢
        obtain ⟨f', rfl⟩ : ∃ f', f = f' + 2 := ⟨f - 2, by simp at h; omega⟩
        rw [parseBody_escape_astral c hc, parseBody_rt cs f' rest (by simp at h ⊢; omega)]
        rfl

theorem parseStrLit_rt (s : List Char) (f : Nat) (rest : List Char)
    (h : (unitsOf s).length < f) :
    parseStrLit f (encodeStr s ++ rest) = some (unitsOf s, rest) := by
  have : encodeStr s ++ rest = '"' :: (escBody s ++ '"' :: rest) := by
    simp [encodeStr]
  rw [this]
  simp [parseStrLit, parseBody_rt s f rest h]

theorem joinComma_cons (e : List Char) (es : List (List Char)) :
    joinComma (e :: es) = e ++ es.flatMap (fun x => ',' :: x) := by
  induction es generalizing e with
  | nil => simp [joinComma]
  | cons y ys ih => rw [joinComma, ih y]; simp

theorem parseRowTail_rt : ∀ (xs : List (List Char)) (f : Nat) (rest : List Char),
    fuelRow xs ≤ f →
    parseRowTail f ((xs.flatMap (fun x => ',' :: encodeStr x)) ++ ']' :: rest)
      = some (xs.map (fun x => unitsOf x), rest)
  | [], f, rest, h => by
      obtain ⟨f', rfl⟩ : ∃ f', f = f' + 1 := ⟨f - 1, by unfold fuelRow at h; omega⟩
      simp [parseRowTail]
  | x :: xs, f, rest, h => by
      unfold fuelRow at h
      obtain ⟨f', rfl⟩ : ∃ f', f = f' + 1 := ⟨f - 1, by omega⟩
      rw [List.flatMap_cons, List.append_assoc, List.cons_append]
      rw [show parseRowTail (f' + 1)
            (',' :: (encodeStr x ++ (xs.flatMap (fun v => ',' :: encodeStr v) ++ ']' :: rest)))
          = match parseStrLit f' (encodeStr x ++ (xs.flatMap (fun v => ',' :: encodeStr v) ++ ']' :: rest)) with
            | none => none
            | some (y, r2) => (parseRowTail f' r2).map (fun p => (y :: p.1, p.2))
          from by simp [parseRowTail]]
      rw [parseStrLit_rt x f' _ (by omega)]
      simp [parseRowTail_rt xs f' rest (by omega)]

theorem flatMap_comma_encode (xs : List (List Char)) :
    ((xs.map encodeStr).flatMap (fun x => ',' :: x))
      = xs.flatMap (fun v => ',' :: encodeStr v) := by
  induction xs with
  | nil => rfl
  | cons y ys ih => simp only [List.map_cons, List.flatMap_cons, ih]

theorem parseRow_rt (xs : List (List Char)) (f : Nat) (rest : List Char)
    (h : fuelRow xs < f) :
    parseRow f (encodeRowL xs ++ rest) = some (xs.map (fun x => unitsOf x), rest) := by
  obtain ⟨f', rfl⟩ : ∃ f', f = f' + 1 := ⟨f - 1, by omega⟩
  cases xs with
  | nil => simp [encodeRowL, joinComma, parseRow]
  | cons x xs =>
      unfold fuelRow at h
      rw [show encodeRowL (x :: xs) ++ rest
          = '[' :: ('"' :: (escBody x ++ ['"'])
              ++ (xs.flatMap (fun v => ',' :: encodeStr v) ++ ']' :: rest)) from by
        rw [encodeRowL, List.map_cons, joinComma_cons, flatMap_comma_encode]
        simp [encodeStr]]
      rw [show parseRow (f' + 1) ('[' :: ('"' :: (escBody x ++ ['"'])
              ++ (xs.flatMap (fun v => ',' :: encodeStr v) ++ ']' :: rest)))
          = match parseStrLit f' ('"' :: (escBody x ++ ['"'])
              ++ (xs.flatMap (fun v => ',' :: encodeStr v) ++ ']' :: rest)) with
            | none => none
            | some (y, r2) => (parseRowTail f' r2).map (fun p => (y :: p.1, p.2))
          from by simp [parseRow]]
      rw [show ('"' : Char) :: (escBody x ++ ['"'])
              ++ (xs.flatMap (fun v => ',' :: encodeStr v) ++ ']' :: rest)
          = encodeStr x ++ (xs.flatMap (fun v => ',' :: encodeStr v) ++ ']' :: rest) from by
        simp [encodeStr]]
      rw [parseStrLit_rt x f' _ (by omega)]
      simp [parseRowTail_rt xs f' rest (by omega)]


theorem flatMap_comma_encodeRow (rs : List (List (List Char))) :
    ((rs.map encodeRowL).flatMap (fun x => ',' :: x))
      = rs.flatMap (fun r => ',' :: encodeRowL r) := by
  induction rs with
  | nil => rfl
  | cons y ys ih => simp only [List.map_cons, List.flatMap_cons, ih]

theorem parseGridTail_rt : ∀ (rs : List (List (List Char))) (f : Nat) (rest : List Char),
    fuelGrid rs ≤ f →
    parseGridTail f ((rs.flatMap (fun r => ',' :: encodeRowL r)) ++ ']' :: rest)
      = some (rs.map (fun r => r.map (fun x => unitsOf x)), rest)
  | [], f, rest, h => by
      obtain ⟨f', rfl⟩ : ∃ f', f = f' + 1 := ⟨f - 1, by unfold fuelGrid at h; omega⟩
      simp [parseGridTail]
  | r :: rs, f, rest, h => by
      unfold fuelGrid at h
      obtain ⟨f', rfl⟩ : ∃ f', f = f' + 1 := ⟨f - 1, by omega⟩
      rw [List.flatMap_cons, List.append_assoc, List.cons_append]
      rw [show parseGridTail (f' + 1)
            (',' :: (encodeRowL r ++ (rs.flatMap (fun v => ',' :: encodeRowL v) ++ ']' :: rest)))
          = match parseRow f' (encodeRowL r ++ (rs.flatMap (fun v => ',' :: encodeRowL v) ++ ']' :: rest)) with
            | none => none
            | some (y, r2) => (parseGridTail f' r2).map (fun p => (y :: p.1, p.2))
          from by simp [parseGridTail]]
      rw [parseRow_rt r f' _ (by omega)]
      simp [parseGridTail_rt rs f' rest (by omega)]

theorem parseGrid_rt (rs : List (List (List Char))) (f : Nat) (rest : List Char)
    (h : fuelGrid rs < f) :
    parseGrid f (encodeGridL rs ++ rest)
      = some (rs.map (fun r => r.map (fun x => unitsOf x)), rest) := by
  obtain ⟨f', rfl⟩ : ∃ f', f = f' + 1 := ⟨f - 1, by omega⟩
  cases rs with
  | nil => simp [encodeGridL, joinComma, parseGrid]
  | cons r rs =>
      unfold fuelGrid at h
      rw [show encodeGridL (r :: rs) ++ rest
          = '[' :: ('[' :: (joinComma (r.map encodeStr) ++ [']'])
              ++ (rs.flatMap (fun v => ',' :: encodeRowL v) ++ ']' :: rest)) from by
        rw [encodeGridL, List.map_cons, joinComma_cons, flatMap_comma_encodeRow]
        simp [encodeRowL]]
      rw [show parseGrid (f' + 1) ('[' :: ('[' :: (joinComma (r.map encodeStr) ++ [']'])
              ++ (rs.flatMap (fun v => ',' :: encodeRowL v) ++ ']' :: rest)))
          = match parseRow f' ('[' :: (joinComma (r.map encodeStr) ++ [']'])
              ++ (rs.flatMap (fun v => ',' :: encodeRowL v) ++ ']' :: rest)) with
            | none => none
            | some (y, r2) => (parseGridTail f' r2).map (fun p => (y :: p.1, p.2))
          from by simp [parseGrid]]
      rw [show ('[' : Char) :: (joinComma (r.map encodeStr) ++ [']'])
              ++ (rs.flatMap (fun v => ',' :: encodeRowL v) ++ ']' :: rest)
          = encodeRowL r ++ (rs.flatMap (fun v => ',' :: encodeRowL v) ++ ']' :: rest) from by
        simp [encodeRowL]]
      rw [parseRow_rt r f' _ (by omega)]
      simp [parseGridTail_rt rs f' rest (by omega)]

theorem charUnits_inj : ∀ (c d : Char), charUnits c = charUnits d → c = d := by
  intro c d h
  have hcv := char_valid_range c
  have hdv := char_valid_range d
  by_cases hc : c.toNat < 65536
  · by_cases hd : d.toNat < 65536
    · simp only [charUnits, if_pos hc, if_pos hd, List.cons.injEq, and_true] at h
      rw [← Char.ofNat_toNat c, ← Char.ofNat_toNat d, h]
    · simp only [charUnits, if_pos hc, if_neg hd, List.cons.injEq] at h
      exact absurd h.1 (by omega)
  · by_cases hd : d.toNat < 65536
    · simp only [charUnits, if_neg hc, if_pos hd, List.cons.injEq] at h
      exact absurd h.1 (by omega)
    · simp only [charUnits, if_neg hc, if_neg hd, List.cons.injEq, and_true] at h
      have hnat : c.toNat = d.toNat := by omega
      rw [← Char.ofNat_toNat c, ← Char.ofNat_toNat d, hnat]

theorem unitsOf_ne_nil (c : Char) (s : List Char) : unitsOf (c :: s) ≠ [] := by
  rw [unitsOf_cons]
  by_cases hc : c.toNat < 65536 <;> simp [charUnits, hc]

theorem unitsOf_inj : ∀ (s t : List Char), unitsOf s = unitsOf t → s = t
  | [], [], _ => rfl
  | [], c :: t, h => absurd h.symm (by simpa [unitsOf] using unitsOf_ne_nil c t)
  | c :: s, [], h => absurd h (by simpa [unitsOf] using unitsOf_ne_nil c s)
  | c :: s, d :: t, h => by
      rw [unitsOf_cons, unitsOf_cons] at h
      have hcv := char_valid_range c
      have hdv := char_valid_range d
      by_cases hc : c.toNat < 65536
      · by_cases hd : d.toNat < 65536
        · simp only [charUnits, if_pos hc, if_pos hd, List.singleton_append,
            List.cons.injEq] at h
          have hcd : c = d := by
            rw [← Char.ofNat_toNat c, ← Char.ofNat_toNat d, h.1]
          rw [hcd, unitsOf_inj s t h.2]
        · simp only [charUnits, if_pos hc, if_neg hd, List.singleton_append,
            List.cons_append, List.cons.injEq] at h
          exact absurd h.1 (by omega)
      · by_cases hd : d.toNat < 65536
        · simp only [charUnits, if_neg hc, if_pos hd, List.singleton_append,
            List.cons_append, List.cons.injEq] at h
          exact absurd h.1 (by omega)
        · simp only [charUnits, if_neg hc, if_neg hd, List.cons_append,
            List.nil_append, List.cons.injEq] at h
          have hnat : c.toNat = d.toNat := by
            have h1 := h.1
            have h2 := h.2.1
            omega
          have hcd : c = d := by
            rw [← Char.ofNat_toNat c, ← Char.ofNat_toNat d, hnat]
          rw [hcd, unitsOf_inj s t h.2.2]

theorem encodeGridL_inj (a b : List (List (List Char)))
    (h : encodeGridL a = encodeGridL b) : a = b := by
  have ha := parseGrid_rt a (max (fuelGrid a) (fuelGrid b) + 1) [] (by omega)
  have hb := parseGrid_rt b (max (fuelGrid a) (fuelGrid b) + 1) [] (by omega)
  rw [h] at ha
  have heq := ha.symm.trans hb
  have h3 : a.map (fun r => r.map (fun x => unitsOf x))
      = b.map (fun r => r.map (fun x => unitsOf x)) := by
    injection heq with h2
    exact congrArg Prod.fst h2
  have hinj : Function.Injective (fun s : List Char => unitsOf s) :=
    fun x y hxy => unitsOf_inj x y hxy
  have hrow : Function.Injective
      (fun r : List (List Char) => r.map (fun x => unitsOf x)) :=
    List.map_injective_iff.mpr hinj
  have hgrid : Function.Injective
      (fun g : List (List (List Char)) => g.map (fun r => r.map (fun x => unitsOf x))) :=
    List.map_injective_iff.mpr hrow
  exact hgrid h3


theorem string_data_injective : Function.Injective String.data := by
  intro s t h
  cases s
  cases t
  exact congrArg String.mk h

theorem encodeGridL_ne_nil (g : List (List (List Char))) : encodeGridL g ≠ [] := by
  rw [encodeGridL]
  simp

/-- Two raw grids with different canonical forms get different SHA-256
preimages, hence different digests (SHA-256 collision-freedom, as the spec
assumes). -/
theorem compute_sheet_hash_inj (g1 g2 : RawGrid)
    (h : canonicalGrid g1 ≠ canonicalGrid g2) :
    compute_sheet_hash g1 ≠ compute_sheet_hash g2 := by
  intro heq
  apply h
  unfold compute_sheet_hash at heq
  have hmapinj : Function.Injective
      (fun g : List (List String) => g.map (fun r => r.map String.data)) :=
    List.map_injective_iff.mpr (List.map_injective_iff.mpr string_data_injective)
  by_cases h1 : g1.isEmpty
  · by_cases h2 : g2.isEmpty
    · have e1 : g1 = [] := List.isEmpty_iff.mp h1
      have e2 : g2 = [] := List.isEmpty_iff.mp h2
      rw [e1, e2]
    · rw [if_pos h1, if_neg h2] at heq
      have hd := congrArg String.data heq
      exact absurd hd.symm (encodeGridL_ne_nil _)
  · by_cases h2 : g2.isEmpty
    · rw [if_neg h1, if_pos h2] at heq
      have hd := congrArg String.data heq
      exact absurd hd (encodeGridL_ne_nil _)
    · rw [if_neg h1, if_neg h2] at heq
      have hd := congrArg String.data heq
      rw [show (String.mk (encodeGrid (canonicalGrid g1))).data
          = encodeGrid (canonicalGrid g1) from rfl,
        show (String.mk (encodeGrid (canonicalGrid g2))).data
          = encodeGrid (canonicalGrid g2) from rfl, encodeGrid, encodeGrid] at hd
      exact hmapinj (encodeGridL_inj _ _ hd)

/-! ## Claim C5 and C10: sheet hash sensitivity and strip invariance -/

/-- C5 (counterexample): the claim "changing the value of any single cell
yields a different digest" is false as stated: the 1×1 grids whose single
cell is `"1"` and `"1 "` differ in that cell, yet `compute_sheet_hash`
strips each cell before serializing, so both produce the same SHA-256
preimage and hence the same digest. -/
theorem C5_cell_change_same_digest :
    some "1" ≠ some "1 "
      ∧ compute_sheet_hash [[some "1"]] = compute_sheet_hash [[some "1 "]] :=
  ⟨by decide, by decide⟩

/-- C5 (amended): re-hashing the same grid is bit-for-bit reproducible, and
any edit that changes the canonicalized grid — changing the *stripped* value
of a cell, reordering rows or columns into a different canonical grid, or
changing the dimensions — yields a different digest (digest = SHA-256 of the
canonical serialization; distinct serializations are produced, so digests
differ by the spec's own collision-freedom assumption).  Whitespace-only
cell edits are invisible to the hash. -/
theorem C5_hash_reproducible_and_sensitive :
    (∀ g : RawGrid, compute_sheet_hash g = compute_sheet_hash g)
      ∧ ∀ g1 g2 : RawGrid, canonicalGrid g1 ≠ canonicalGrid g2 →
          compute_sheet_hash g1 ≠ compute_sheet_hash g2 :=
  ⟨fun _ => rfl, compute_sheet_hash_inj⟩

/-- Witness for C5: a one-cell change `"1" → "2"` changes the canonical grid
and therefore the digest. -/
theorem C5_hash_sensitivity_witness :
    canonicalGrid [[some "1"]] ≠ canonicalGrid [[some "2"]]
      ∧ compute_sheet_hash [[some "1"]] ≠ compute_sheet_hash [[some "2"]] :=
  ⟨by decide, C5_hash_reproducible_and_sensitive.2 [[some "1"]] [[some "2"]] (by decide)⟩

/-- C10: the sheet hash is invariant under per-cell whitespace trimming —
two raw grids of the same dimensions whose cells agree after stripping
(`None` read as `""`) get identical digests. -/
theorem C10_hash_strip_invariant (g1 g2 : RawGrid)
    (h : g1.map (fun r => r.map stripCell) = g2.map (fun r => r.map stripCell)) :
    compute_sheet_hash g1 = compute_sheet_hash g2 := by
  have hnorm : normalizeCell = stripCell := funext normalizeCell_eq_stripCell
  have hcanon : ∀ g : RawGrid, canonicalGrid g = g.map (fun r => r.map stripCell) := by
    intro g
    rw [canonicalGrid, hnorm]
  have hc : canonicalGrid g1 = canonicalGrid g2 := by
    rw [hcanon, hcanon, h]
  have hlen : g1.length = g2.length := by
    have := congrArg List.length h
    simpa using this
  have hemp : g1.isEmpty = g2.isEmpty := by
    cases g1 <;> cases g2 <;> simp_all
  rw [compute_sheet_hash, compute_sheet_hash, hc, hemp]

/-- Witness for C10: `[[" a ", None]]` and `[["a", ""]]` hash identically. -/
theorem C10_hash_strip_invariant_witness :
    ([[some " a ", none]] : RawGrid).map (fun r => r.map stripCell)
        = ([[some "a", some ""]] : RawGrid).map (fun r => r.map stripCell)
      ∧ compute_sheet_hash [[some " a ", none]] = compute_sheet_hash [[some "a", some ""]] :=
  ⟨by decide, C10_hash_strip_invariant [[some " a ", none]] [[some "a", some ""]] (by decide)⟩

/-! ## Claim C2: segmenter region overlap -/

/-- C2 (code bug, evaluation at the failing input): on `c2grid` the
segmenter returns two tables whose rectangles both contain cell `(0, 1)` —
the `assigned` mask is consulted only at seed cells, and the downward
column-widening of the second region grows left into cells already claimed
by the first.  This contradicts the claimed pairwise disjointness. -/
theorem C2_regions_overlap :
    ((detect_tables_custom c2grid).map (fun t => (t.row_range, t.col_range))
        = [((0, 3), (0, 2)), ((0, 3), (1, 6))])
      ∧ ∃ t1 ∈ detect_tables_custom c2grid, ∃ t2 ∈ detect_tables_custom c2grid,
          t1 ≠ t2 ∧ cellInTable t1 0 1 ∧ cellInTable t2 0 1 := by
  constructor
  · decide
  · decide

/-! ## Claims C7, C8, C9: table cleaner and detection fallback -/

/-- C7: on the 4×2 region `[["Sales", ""], ["Name", "Qty"], ["A", "1"],
["B", "2"]]` the cleaner returns exactly one table with title `"Sales"`,
column names `["Name", "Qty"]` and exactly two data rows. -/
theorem C7_cleaner_title_header_rows :
    (clean_detected_tables [c7table] true).map
        (fun t => (t.title, t.dataframe.cols, t.dataframe.rows.length))
      = [(some "Sales", ["Name", "Qty"], 2)] := by
  decide

/-- C8 (counterexample): a detected table whose dataframe has no rows —
hence zero data rows after (vacuous) cleaning — is *kept* by the cleaner:
the `len(df) < 2` shortcut re-emits it instead of dropping it, so not every
output table has at least one data row. -/
theorem C8_zero_row_table_kept :
    (clean_detected_tables [c8empty] true).length = 1
      ∧ ∃ t ∈ clean_detected_tables [c8empty] true, t.dataframe.rows.length = 0 := by
  decide

/-- C8 (amended): restricted to tables that actually undergo cleaning —
non-wide tables with at least two rows — the claim holds: every such table
surviving into the output has at least one data row (tables trimmed to zero
data rows are dropped). -/
theorem C8_cleaned_tables_have_data (tables : List PyTable) (keepTitle : Bool)
    (h : ∀ t ∈ tables, t.is_wide_table = false ∧ t.has_header_rows = false
      ∧ 2 ≤ t.dataframe.rows.length) :
    ∀ u ∈ clean_detected_tables tables keepTitle, 0 < u.dataframe.rows.length := by
  intro u hu
  rw [clean_detected_tables, List.mem_filterMap] at hu
  obtain ⟨t, ht, hclean⟩ := hu
  obtain ⟨hw1, hw2, hlen⟩ := h t ht
  rw [cleanOne] at hclean
  rw [hw1, hw2] at hclean
  simp only [Bool.or_self, Bool.false_eq_true, if_false] at hclean
  rw [if_neg (show ¬ t.dataframe.rows.length < 2 by omega)] at hclean
  match hrows : t.dataframe.rows with
  | [] => rw [hrows] at hlen; simp at hlen
  | [_] => rw [hrows] at hlen; simp at hlen
  | firstRow :: secondRow :: restRows =>
      rw [hrows] at hclean
      simp only [] at hclean
      repeat' first
        | split at hclean
        | simp only [] at hclean
      all_goals first
        | exact Option.noConfusion hclean
        | (rw [Option.some.injEq] at hclean
           subst hclean
           simp)

/-- Witness for C8 (amended) at the C7 region. -/
theorem C8_cleaned_tables_have_data_witness :
    (∀ t ∈ [c7table], t.is_wide_table = false ∧ t.has_header_rows = false
      ∧ 2 ≤ t.dataframe.rows.length)
      ∧ ∀ u ∈ clean_detected_tables [c7table] true, 0 < u.dataframe.rows.length :=
  ⟨by decide, C8_cleaned_tables_have_data [c7table] true (by decide)⟩

/-- C9: whenever the segmenter raises (`Except.error`) or returns no tables
(`Except.ok []`), `detect_and_clean_tables` returns exactly one table
covering the whole grid — `row_range (0, nrows)`, `col_range (0, ncols)`,
original dataframe — instead of propagating the failure. -/
theorem C9_detection_fallback (df : Df) (name : String)
    (seg : Except String (List PyTable))
    (h : (∃ e, seg = Except.error e) ∨ seg = Except.ok []) :
    detect_and_clean_tables df name seg = [fallbackWholeTable df name] := by
  rcases h with ⟨e, rfl⟩ | rfl <;> rfl

/-- Witness for C9: an empty detection on a 1×1 grid. -/
theorem C9_detection_fallback_witness :
    detect_and_clean_tables ⟨["0"], [["x"]]⟩ "Sheet1" (Except.ok [])
      = [fallbackWholeTable ⟨["0"], [["x"]]⟩ "Sheet1"] :=
  C9_detection_fallback ⟨["0"], [["x"]]⟩ "Sheet1" (Except.ok []) (Or.inr rfl)

/-! ## Claims C1, C3, C4, C6: loader, naming, change classification -/

/-- Occurrence count of a base name in a prefix of the pass. -/
def countOcc (b : String) (l : List String) : Nat :=
  (l.filter (fun x => x == b)).length

theorem countOcc_nil (b : String) : countOcc b [] = 0 := rfl

theorem countOcc_cons (b x : String) (l : List String) :
    countOcc b (x :: l) = (if x = b then 1 else 0) + countOcc b l := by
  by_cases h : x = b <;> simp [countOcc, h] <;> omega

theorem getCount_setCount : ∀ (m : List (String × Nat)) (k : String) (v : Nat) (x : String),
    getCount (setCount m k v) x = if x = k then some v else getCount m x
  | [], k, v, x => by
      by_cases hxk : x = k
      · subst hxk; simp [setCount, getCount]
      · have hkx : ¬ (k = x) := fun h => hxk h.symm
        simp [setCount, getCount, hxk, hkx]
  | (k0, v0) :: rest, k, v, x => by
      by_cases hk : k0 = k
      · subst hk
        by_cases hxk : x = k0
        · subst hxk; simp [setCount, getCount]
        · have hk0x : ¬ (k0 = x) := fun h => hxk h.symm
          simp [setCount, getCount, hxk, hk0x]
      · by_cases hx0 : k0 = x
        · subst hx0
          simp [setCount, getCount, hk]
        · simp [setCount, getCount, hk, hx0, getCount_setCount rest k v x]

theorem assignGo_get :
    ∀ (bases : List String) (m : List (String × Nat)) (f : String → Nat)
      (hm : ∀ b, getCount m b = if f b = 0 then none else some (f b))
      (i : Nat) (b : String), bases[i]? = some b →
      (assignGo m bases)[i]?
        = some (if f b + countOcc b (bases.take i) = 0 then b
            else b ++ "_" ++ toString (f b + countOcc b (bases.take i) + 1))
  | [], _, _, _, i, b, h => by simp at h
  | b0 :: bs, m, f, hm, 0, b, h => by
      have hb : b0 = b := by simpa using h
      subst hb
      rw [assignGo]
      simp only [List.getElem?_cons_zero, List.take_zero, countOcc_nil,
        Nat.add_zero]
      rw [resolveName, hm b0]
      by_cases hf : f b0 = 0
      · simp [hf]
      · simp [hf]
  | b0 :: bs, m, f, hm, i + 1, b, h => by
      rw [List.getElem?_cons_succ] at h
      rw [assignGo]
      simp only [List.getElem?_cons_succ]
      have hres2 : (resolveName m b0).2 = setCount m b0 (f b0 + 1) := by
        rw [resolveName, hm b0]
        by_cases hf0 : f b0 = 0
        · simp [hf0]
        · simp [hf0]
      have hcons : ∀ x, getCount (resolveName m b0).2 x
          = if (if x = b0 then f x + 1 else f x) = 0 then none
            else some (if x = b0 then f x + 1 else f x) := by
        intro x
        rw [hres2, getCount_setCount]
        by_cases hx : x = b0
        · subst hx; simp
        · simp [hx, hm x]
      have step := assignGo_get bs (resolveName m b0).2
        (fun x => if x = b0 then f x + 1 else f x) hcons i b h
      rw [step]
      have hAB : (if b = b0 then f b + 1 else f b) + countOcc b (bs.take i)
          = f b + countOcc b ((b0 :: bs).take (i + 1)) := by
        rw [List.take_succ_cons, countOcc_cons]
        by_cases hb : b = b0
        · subst hb; simp; omega
        · have hb0 : ¬ (b0 = b) := fun hx => hb hx.symm
          simp [hb, hb0]
      rw [hAB]

/-- C4 (amended): within one rebuild pass the first table with sanitized
base name `N` is persisted under the bare name `N`, and the k-th occurrence
(k ≥ 2) of the same base name gets the numeric suffix `_k` — in particular
two titled tables sharing a sanitized title resolve to `Title` and
`Title_2` (not `Title_1`: the counter is incremented to 2 before
suffixing). -/
theorem C4_name_collision_numbering (bases : List String) (i : Nat) (b : String)
    (h : bases[i]? = some b) :
    (assignFinalNames bases)[i]?
      = some (if countOcc b (bases.take i) = 0 then b
          else b ++ "_" ++ toString (countOcc b (bases.take i) + 1)) := by
  have hgo := assignGo_get bases [] (fun _ => 0) (fun c => by simp [getCount]) i b h
  simpa using hgo

/-- Witness for C4 (amended): second occurrence of `Title` is `Title_2`. -/
theorem C4_name_collision_numbering_witness :
    (["Title", "Title"] : List String)[1]? = some "Title"
      ∧ (assignFinalNames ["Title", "Title"])[1]? = some "Title_2" := by
  refine ⟨by decide, ?_⟩
  have h := C4_name_collision_numbering ["Title", "Title"] 1 "Title" (by decide)
  rw [h]
  decide

/-- C4 (counterexample): a full load of one sheet with two tables titled
`Title` persists them as `Title` and `Title_2`; no table named `Title_1`
exists, so "two titled tables sharing the same sanitized title resolve to
Title and Title_1" is false on the code. -/
theorem C4_second_occurrence_not_Title_1 :
    ((load_snapshot c4swt true [] "sid" "t0" {}).1.meta.map (fun p => p.1)
        = ["Title", "Title_2"])
      ∧ alistLookup (load_snapshot c4swt true [] "sid" "t0" {}).1.meta "Title_1"
          = none := by
  constructor
  · decide
  · decide

/-- C6: `needs_refresh` returns FullReset `(true, true, [])` (1) whenever
the stored registry's spreadsheet id is set (truthy) and differs from the
current one, regardless of any per-sheet hashes, and (2) whenever the
registry's sheet map is empty. -/
theorem C6_full_reset_precedence :
    (∀ (reg : Registry) (cur : String) (swt : List (String × List PyTable)) (s : String),
        reg.spreadsheet_id = some s → s ≠ "" → s ≠ cur →
        needs_refresh reg cur swt = (true, true, []))
      ∧ ∀ (reg : Registry) (cur : String) (swt : List (String × List PyTable)),
          reg.sheets = [] → needs_refresh reg cur swt = (true, true, []) := by
  constructor
  · intro reg cur swt s hs hne hdiff
    rw [needs_refresh, hs]
    simp [hne, hdiff]
  · intro reg cur swt hsheets
    rw [needs_refresh]
    by_cases hc : (match reg.spreadsheet_id with
        | some s => decide (s ≠ "") && decide (s ≠ cur)
        | none => false) = true
    · rw [if_pos hc]
    · rw [if_neg hc, hsheets]
      simp

/-- Witness for C6: registry id `X` vs current `Y`, and an empty
registry. -/
theorem C6_full_reset_precedence_witness :
    needs_refresh ⟨some "X", [("S1", { hash := some "abc" })]⟩ "Y" [] = (true, true, [])
      ∧ needs_refresh ⟨none, []⟩ "Y" [] = (true, true, []) :=
  ⟨C6_full_reset_precedence.1 ⟨some "X", [("S1", { hash := some "abc" })]⟩ "Y" [] "X"
      rfl (by decide) (by decide),
   C6_full_reset_precedence.2 ⟨none, []⟩ "Y" [] rfl⟩

/-- C1 (code bug, evaluation at the failing input): on a first-run cycle
(empty registry, one sheet) the orchestrator's event trace persists the
per-sheet hashes (`save_sheet_registry`, via the `mark_synced` call at the
end of `load_snapshot`) *before* the semantic index rebuild
(`store.rebuild()` in `run`) happens — contradicting the claim (and
`mark_synced`'s own docstring, which requires it to run after both DuckDB
and ChromaDB updates). -/
theorem C1_registry_persisted_before_semantic_rebuild :
    (runSync c1swt "sid" "t0" {}).2
        = [SyncEvent.chromaClear, SyncEvent.resetDb, SyncEvent.saveTableMeta,
           SyncEvent.dropTable "S1_Table1", SyncEvent.createTable "S1_Table1",
           SyncEvent.saveTableMeta, SyncEvent.saveRegistry,
           SyncEvent.chromaRebuildAll]
      ∧ persistsRegistryBeforeSemanticRebuild (runSync c1swt "sid" "t0" {}).2 = true := by
  constructor
  · decide
  · decide

/-- C3 (code bug, evaluation at the failing input): an incremental rebuild
scoped to sheet A whose table is titled `Sales` overwrites unaffected sheet
B's table of the same resolved name: before the rebuild the metadata entry
`Sales` belongs to `sid#B`; afterwards the stored table holds A's dataframe
and the metadata entry's source id is `sid#A` — the name-collision path
(`DROP TABLE IF EXISTS` + dict overwrite) ignores scope. -/
theorem C3_incremental_rebuild_clobbers_other_sheet :
    alistLookup c3state.meta "Sales"
        = some { source_id := some "sid#B", sheet_name := some "B",
                 table_index := 1, row_count := 2, created_at := "t0" }
      ∧ alistLookup (load_snapshot c3swt false ["A"] "sid" "t1" c3state).1.duck "Sales"
          = some c3dfA
      ∧ (alistLookup (load_snapshot c3swt false ["A"] "sid" "t1" c3state).1.meta
            "Sales").map (fun mrow => mrow.source_id)
          = some (some "sid#A") := by
  refine ⟨by decide, by decide, by decide⟩

end KiwiRag
